import Mathlib

/-!
Verification of the data layer of the promotion-analytics dashboard
(`scripts/data_loader.py`, `dashboard.py`, `pages/1_Advanced_Analytics.py`).

The Python code is shallowly embedded: a pandas `DataFrame` becomes a record
holding the list of column names (pandas columns are dynamic, so presence is
tracked separately from the typed row payload) together with a list of typed
rows; numeric columns become `ℚ`; `NaN` in a grouping column becomes `none`;
code that raises (pandas `KeyError`, `ValueError`) or surfaces a blocking
warning becomes `Except`.
-/

/-- A pandas dataframe: the dynamic list of column names plus the typed rows.
`cols` models `df.columns` (the code probes membership there); the row type
`ρ` carries the values of the columns a given code path reads. -/
structure DataFrame (ρ : Type) where
  cols : List String
  rows : List ρ
deriving DecidableEq

/-- A row of the `clean_all`-style tables as seen by the global filter engine
(`scripts/data_loader.py`, `apply_global_filters`): one value per filterable
dimension column. -/
structure FRow where
  campaign_id : String
  category : String
  product_code : String
  promo_type : String
  city : String
deriving DecidableEq

/-- The `st.session_state` selections read by `apply_global_filters` via
`state.get(key, [])`: a list of accepted values per dimension (empty list =
key missing or nothing selected), plus the `date_start` / `date_end` entries
that only the dead code after the `return` would read. -/
structure FilterState where
  campaigns : List String
  categories : List String
  products : List String
  promo_types : List String
  cities : List String
  date_start : Option Int
  date_end : Option Int
deriving DecidableEq

/-- The `filters` list built by the loop in `apply_global_filters`: for each
(column, session key) pair of `filter_map`, a membership predicate is added
iff the column is present and the selection is non-empty. -/
def activeFilters (cols : List String) (s : FilterState) : List (FRow → Bool) :=
  (if "campaign_id" ∈ cols ∧ s.campaigns ≠ [] then
    [fun r => s.campaigns.contains r.campaign_id] else [])
  ++ (if "category" ∈ cols ∧ s.categories ≠ [] then
    [fun r => s.categories.contains r.category] else [])
  ++ (if "product_code" ∈ cols ∧ s.products ≠ [] then
    [fun r => s.products.contains r.product_code] else [])
  ++ (if "promo_type" ∈ cols ∧ s.promo_types ≠ [] then
    [fun r => s.promo_types.contains r.promo_type] else [])
  ++ (if "city" ∈ cols ∧ s.cities ≠ [] then
    [fun r => s.cities.contains r.city] else [])

/-- `scripts/data_loader.py`, `apply_global_filters`: early return for an
empty frame, then `df[np.logical_and.reduce(filters)]` when at least one
filter is active.  The date-range code after the unconditional `return`
is dead and therefore absent from the embedding. -/
def apply_global_filters (df : DataFrame FRow) (s : FilterState) : DataFrame FRow :=
  if df.rows.isEmpty || df.cols.isEmpty then df
  else if (activeFilters df.cols s).isEmpty then df
  else ⟨df.cols, df.rows.filter (fun r => (activeFilters df.cols s).all (fun p => p r))⟩

/-- The row predicate that one dimension of `filter_map` contributes:
`df[col].isin(selected)` when the column is present and the selection is
non-empty, vacuously true otherwise. -/
def dimPass (cols : List String) (c : String) (sel : List String) (v : String) : Bool :=
  if c ∈ cols ∧ sel ≠ [] then sel.contains v else true

/-- Conjunction of the five dimension predicates (`np.logical_and.reduce`). -/
def rowPass (cols : List String) (s : FilterState) (r : FRow) : Bool :=
  dimPass cols "campaign_id" s.campaigns r.campaign_id
  && dimPass cols "category" s.categories r.category
  && dimPass cols "product_code" s.products r.product_code
  && dimPass cols "promo_type" s.promo_types r.promo_type
  && dimPass cols "city" s.cities r.city

/-- "S2 more restrictive than S1 on every dimension": on each dimension,
either S1 imposes no restriction (empty selection = accept all), or S2's
accepted set is non-empty and contained in S1's. -/
def MoreRestrictive (s1 s2 : FilterState) : Prop :=
  (s1.campaigns = [] ∨ (s2.campaigns ≠ [] ∧ ∀ v ∈ s2.campaigns, v ∈ s1.campaigns))
  ∧ (s1.categories = [] ∨ (s2.categories ≠ [] ∧ ∀ v ∈ s2.categories, v ∈ s1.categories))
  ∧ (s1.products = [] ∨ (s2.products ≠ [] ∧ ∀ v ∈ s2.products, v ∈ s1.products))
  ∧ (s1.promo_types = [] ∨ (s2.promo_types ≠ [] ∧ ∀ v ∈ s2.promo_types, v ∈ s1.promo_types))
  ∧ (s1.cities = [] ∨ (s2.cities ≠ [] ∧ ∀ v ∈ s2.cities, v ∈ s1.cities))

/-- Selection state with no selection on any dimension and no dates. -/
def emptyState : FilterState :=
  ⟨[], [], [], [], [], none, none⟩

/-- Concrete table used by the filter-engine witnesses: all five dimension
columns present, two rows from different campaigns. -/
def wFilterDf : DataFrame FRow :=
  ⟨["campaign_id", "category", "product_code", "promo_type", "city"],
   [⟨"C1", "Grocery", "P1", "BOGOF", "Delhi"⟩,
    ⟨"C2", "Grocery", "P2", "25% OFF", "Mumbai"⟩]⟩

/-- Selection keeping only campaign C1. -/
def wCampaignState : FilterState :=
  ⟨["C1"], [], [], [], [], none, none⟩

/-- A row of the scoped `clean_all` table as read by the KPI summary and the
faceted section of the dashboard: identifiers plus the four before/after
measure columns. -/
structure KRow where
  campaign_id : String
  product_code : String
  revenue_before_promo : ℚ
  revenue_after_promo : ℚ
  quantity_sold_before_promo : ℚ
  quantity_sold_after_promo : ℚ
deriving DecidableEq

/-- `scope_df["revenue_before_promo"].sum()`. -/
def total_revenue_before (rows : List KRow) : ℚ :=
  (rows.map (·.revenue_before_promo)).sum

/-- `scope_df["revenue_after_promo"].sum()`. -/
def total_revenue_after (rows : List KRow) : ℚ :=
  (rows.map (·.revenue_after_promo)).sum

/-- `scope_df["quantity_sold (before_promo)"].sum()`. -/
def total_units_before (rows : List KRow) : ℚ :=
  (rows.map (·.quantity_sold_before_promo)).sum

/-- `scope_df["quantity_sold (after_promo)"].sum()`. -/
def total_units_after (rows : List KRow) : ℚ :=
  (rows.map (·.quantity_sold_after_promo)).sum

/-- `dashboard.py` KPI Summary, Revenue branch:
`ir_percent = ((total_after - total_before) / total_before * 100) if total_before else 0`.
Python truthiness of a numeric sum: the guard fires exactly when the sum is
non-zero. -/
def ir_percent (rows : List KRow) : ℚ :=
  if total_revenue_before rows ≠ 0 then
    (total_revenue_after rows - total_revenue_before rows) / total_revenue_before rows * 100
  else 0

/-- `dashboard.py` KPI Summary, Units branch (`isu_percent`), same guard. -/
def isu_percent (rows : List KRow) : ℚ :=
  if total_units_before rows ≠ 0 then
    (total_units_after rows - total_units_before rows) / total_units_before rows * 100
  else 0

/-- IEEE-style division as numpy performs it on the summed scalars: a zero
denominator yields a non-finite value (`inf`, `-inf` or `NaN`), which the
embedding represents as `none`; a non-zero denominator yields the exact
quotient. -/
def floatDiv (x y : ℚ) : Option ℚ :=
  if y = 0 then none else some (x / y)

/-- `dashboard.py` module level, after the KPI Summary (`# dont touchh`):
`ir_percent = (total_after - total_before) / total_before * 100`, recomputed
with NO zero guard; this value feeds the before/after chart. -/
def ir_percent_chart (rows : List KRow) : Option ℚ :=
  (floatDiv (total_revenue_after rows - total_revenue_before rows)
    (total_revenue_before rows)).map (fun q => q * 100)

/-- `dashboard.py` module level: unguarded
`isu_percent = (total_units_after - total_units_before) / total_units_before * 100`. -/
def isu_percent_chart (rows : List KRow) : Option ℚ :=
  (floatDiv (total_units_after rows - total_units_before rows)
    (total_units_before rows)).map (fun q => q * 100)

/-- Scoped table whose before-promo sums are zero while the after values are
not: one row with `revenue_before_promo = 0`, `revenue_after_promo = 10`,
`quantity_sold (before_promo) = 0`, `quantity_sold (after_promo) = 5`. -/
def zeroBeforeRows : List KRow :=
  [⟨"C1", "P1", 0, 10, 0, 5⟩]

/-- Order-preserving deduplication keeping first occurrences, as
`pandas.Series.unique()` does; `seen` accumulates the values already kept. -/
def uniqueAux {α : Type} [DecidableEq α] (seen : List α) : List α → List α
  | [] => []
  | x :: xs => if x ∈ seen then uniqueAux seen xs else x :: uniqueAux (x :: seen) xs

/-- `series.unique().tolist()`: distinct values in order of first occurrence. -/
def unique {α : Type} [DecidableEq α] (xs : List α) : List α :=
  uniqueAux [] xs

/-- The index a Python dict comprehension `{label: i for i, label in
enumerate(labels)}` assigns to a value: the position of its LAST occurrence
(later duplicates overwrite earlier entries), `none` when absent —
`series.map(mapping)` yields missing for unmapped values. -/
def lastIndexOf {α : Type} [DecidableEq α] : List α → α → Option Nat
  | [], _ => none
  | x :: xs, v =>
    match lastIndexOf xs v with
    | some i => some (i + 1)
    | none => if x = v then some 0 else none

/-- The dashboard's metric-family toggle: Revenue or Units. -/
inductive Metric
  | Revenue
  | Units
deriving DecidableEq

/-- A row of the scoped `clean_all` table as read by the Sankey section of
`pages/1_Advanced_Analytics.py`: the three hierarchy levels plus the two
selectable weight columns. -/
structure SRow where
  campaign_id : String
  promo_type : String
  category : String
  revenue_after_promo : ℚ
  total_quantity_sold : ℚ
deriving DecidableEq

/-- `value_col = "revenue_after_promo" if metric == "Revenue" else "total_quantity_sold"`. -/
def valueOf (m : Metric) (r : SRow) : ℚ :=
  match m with
  | .Revenue => r.revenue_after_promo
  | .Units => r.total_quantity_sold

/-- One Sankey link: `source`/`target` as produced by
`df_links[col].map(label_indices)` (an `Option` index, missing when the label
is unmapped) and the summed weight. -/
structure SEdge where
  src : Option Nat
  tgt : Option Nat
  weight : ℚ
deriving DecidableEq

/-- `labels = campaigns + promos + categories`: plain list concatenation of
the three per-level `unique()` lists — NOT deduplicated across levels. -/
def sankey_labels (rows : List SRow) : List String :=
  unique (rows.map (·.campaign_id)) ++ unique (rows.map (·.promo_type))
    ++ unique (rows.map (·.category))

/-- One hop of links: `df_sankey.groupby([a_col, b_col])[value_col].sum()`,
then each side mapped through `label_indices` (last-occurrence indices). -/
def hopEdges (rows : List SRow) (f g : SRow → String) (m : Metric)
    (labels : List String) : List SEdge :=
  (unique (rows.map (fun r => (f r, g r)))).map (fun ab =>
    ⟨lastIndexOf labels ab.1, lastIndexOf labels ab.2,
     ((rows.filter (fun r => decide ((f r, g r) = ab))).map (valueOf m)).sum⟩)

/-- The combined link list: hop-1 links (campaign → promo type) followed by
hop-2 links (promo type → category), `pd.concat` with no merging. -/
def sankey_edges (rows : List SRow) (m : Metric) : List SEdge :=
  hopEdges rows (·.campaign_id) (·.promo_type) m (sankey_labels rows)
    ++ hopEdges rows (·.promo_type) (·.category) m (sankey_labels rows)

/-- The flow graph handed to `go.Sankey`: node label list plus link list. -/
structure FlowGraph where
  nodes : List String
  edges : List SEdge
deriving DecidableEq

/-- The two ways the Sankey section can fail before rendering: the
missing-column warning (computation skipped), or the `ValueError` that
`int(...)` raises when the slider maximum `df_sankey[value_col].max()` is the
NaN of an empty series. -/
inductive SankeyError
  | missingColumns (cols : List String)
  | intCastNaN
deriving DecidableEq

/-- `required_cols` of the Sankey section. -/
def sankey_required : List String :=
  ["campaign_id", "promo_type", "category", "revenue_after_promo",
   "total_quantity_sold"]

/-- `required_cols - set(df.columns)` for the Sankey section. -/
def sankeyMissing {ρ : Type} (df : DataFrame ρ) : List String :=
  sankey_required.filter (fun c => decide (c ∉ df.cols))

/-- `series.max()` with pandas semantics: NaN (here `none`) on an empty
series. -/
def seriesMax (xs : List ℚ) : Option ℚ :=
  match xs with
  | [] => none
  | x :: rest => some (rest.foldl max x)

/-- The Sankey section of `pages/1_Advanced_Analytics.py` (lines 176-253):
missing-column check, slider whose maximum is `int(df_sankey[value_col].max())`
(a `ValueError` when that max is NaN), threshold filter
`df_sankey[df_sankey[value_col] >= min_value]`, then node and link
construction. -/
def sankeySection (df : DataFrame SRow) (m : Metric) (minValue : ℚ) :
    Except SankeyError FlowGraph :=
  if sankeyMissing df ≠ [] then .error (.missingColumns (sankeyMissing df))
  else
    match seriesMax (df.rows.map (valueOf m)) with
    | none => .error .intCastNaN
    | some _ =>
      let kept := df.rows.filter (fun r => decide (minValue ≤ valueOf m r))
      .ok ⟨sankey_labels kept, sankey_edges kept m⟩

/-- Modelled from the spec: the node list the claim describes — "the ordered
union of distinct values from level1, then level2, then level3", one node
index per value even across levels. -/
def specNodeUnion (rows : List SRow) : List String :=
  unique (rows.map (·.campaign_id) ++ rows.map (·.promo_type)
    ++ rows.map (·.category))

/-- One row whose campaign label equals its promo-type label: "X" appears at
two hierarchy levels. -/
def crossLevelRows : List SRow :=
  [⟨"X", "X", "Z", 5, 1⟩]

/-- A row of the scoped `clean_all` table as read by the Sunburst rollup of
`pages/1_Advanced_Analytics.py`: the four path columns (each `Option` since a
missing/NaN path segment drops the row from the grouping), the two selectable
value columns and the color column `incremental_margin%`. -/
structure RRow where
  campaign_id : Option String
  promo_type : Option String
  category : Option String
  product_code : Option String
  revenue_after_promo : ℚ
  total_quantity_sold : ℚ
  incremental_margin_pct : ℚ
deriving DecidableEq

/-- The Sunburst's `value_col`: `revenue_after_promo` for Revenue,
`total_quantity_sold` for Units. -/
def rvalue (m : Metric) (r : RRow) : ℚ :=
  match m with
  | .Revenue => r.revenue_after_promo
  | .Units => r.total_quantity_sold

/-- The grouping key `(campaign_id, promo_type, category, product_code)`;
`none` when any segment is missing — `groupby` with its default
`dropna=True` silently drops such rows. -/
def pathKey (r : RRow) : Option (String × String × String × String) :=
  match r.campaign_id, r.promo_type, r.category, r.product_code with
  | some a, some b, some c, some d => some (a, b, c, d)
  | _, _, _, _ => none

/-- One Aggregate Node of the rollup (`agg`): the path values, the summed
measure and the mean color value (`incremental_margin_pct` in the code). -/
structure AggRow where
  campaign_id : String
  promo_type : String
  category : String
  product_code : String
  measure_value : ℚ
  incremental_margin_pct : ℚ
deriving DecidableEq

/-- The full path tuple of an Aggregate Node. -/
def AggRow.path (g : AggRow) : String × String × String × String :=
  (g.campaign_id, g.promo_type, g.category, g.product_code)

/-- Keys of the rows whose path is fully present, in row order. -/
def validKeys (rows : List RRow) : List (String × String × String × String) :=
  rows.filterMap pathKey

/-- The rows belonging to one group key. -/
def groupRows (rows : List RRow)
    (k : String × String × String × String) : List RRow :=
  rows.filter (fun r => decide (pathKey r = some k))

/-- pandas `mean`: sum divided by count. -/
def mean (xs : List ℚ) : ℚ :=
  xs.sum / (xs.length : ℚ)

/-- `df_sb.groupby(path, as_index=False).agg(value_col=sum,
incremental_margin_pct=mean)`: one output row per distinct fully-present
path, with the summed measure and the mean color value.  (pandas emits the
groups in sorted-key order; the embedding emits them in first-occurrence
order — no claim depends on the output order.) -/
def rollup_agg (rows : List RRow) (m : Metric) : List AggRow :=
  (unique (validKeys rows)).map (fun k =>
    ⟨k.1, k.2.1, k.2.2.1, k.2.2.2,
     ((groupRows rows k).map (rvalue m)).sum,
     mean ((groupRows rows k).map (·.incremental_margin_pct))⟩)

/-- The leaf dimension of the Sunburst path: its last segment,
`product_code`. -/
def leafOf (g : AggRow) : String :=
  g.product_code

/-- `agg.groupby("product_code")[value_col].sum()` evaluated at one leaf:
the measure summed across ALL groups sharing that leaf. -/
def leafTotal (gs : List AggRow) (v : String) : ℚ :=
  ((gs.filter (fun g => decide (leafOf g = v))).map (·.measure_value)).sum

/-- Stable insertion into a list sorted descending by `key`. -/
def insertDescBy {α : Type} (key : α → ℚ) (a : α) : List α → List α
  | [] => [a]
  | b :: bs => if key b < key a then a :: b :: bs else b :: insertDescBy key a bs

/-- Stable sort, descending by `key`. -/
def sortDescBy {α : Type} (key : α → ℚ) : List α → List α
  | [] => []
  | a :: as => insertDescBy key a (sortDescBy key as)

/-- `nlargest(top_n).index.tolist()`: the (at most) `n` leaf values with the
largest summed measure.  (`nlargest` breaks exact ties by series position;
the embedding's stable descending sort likewise keeps a determinate choice
among tied leaves — no claim constrains the tie order.) -/
def top_leaves (gs : List AggRow) (n : ℕ) : List String :=
  (sortDescBy (leafTotal gs) (unique (gs.map leafOf))).take n

/-- `if top_n and top_n > 0: agg = agg[agg["product_code"].isin(top_leaves)]`:
prune by leaf identity. -/
def pruneTopN (gs : List AggRow) (n : ℕ) : List AggRow :=
  if 0 < n then gs.filter (fun g => decide (leafOf g ∈ top_leaves gs n)) else gs

/-- `required_cols` of the Sunburst section. -/
def sunburst_required : List String :=
  ["campaign_id", "promo_type", "category", "product_code",
   "incremental_margin%", "revenue_after_promo", "total_quantity_sold"]

/-- `required_cols - set(df.columns)` for the Sunburst section. -/
def sunburstMissing (df : DataFrame RRow) : List String :=
  sunburst_required.filter (fun c => decide (c ∉ df.cols))

/-- The Sunburst section of `pages/1_Advanced_Analytics.py` (lines 329-407):
missing-column warning (no aggregate computed) or rollup followed by the
optional top-N leaf pruning. -/
def sunburstSection (df : DataFrame RRow) (m : Metric) (top_n : ℕ) :
    Except (List String) (List AggRow) :=
  if sunburstMissing df ≠ [] then .error (sunburstMissing df)
  else .ok (pruneTopN (rollup_agg df.rows m) top_n)

/-- Two rows sharing the full path ("C1","BOGOF","Grocery","P14") with
measures 10 and 20 (margins 1 and 3), plus one row whose promo_type is
missing (NaN) and which the grouping must silently drop. -/
def rollupExampleRows : List RRow :=
  [⟨some "C1", some "BOGOF", some "Grocery", some "P14", 10, 3, 1⟩,
   ⟨some "C1", some "BOGOF", some "Grocery", some "P14", 20, 5, 3⟩,
   ⟨some "C1", none, some "Grocery", some "P14", 100, 7, 9⟩]

/-- Aggregate nodes over three leaf values with totals A:5, B:50 (across two
groups) and C:20. -/
def topNExampleGroups : List AggRow :=
  [⟨"C1", "BOGOF", "Grocery", "A", 5, 0⟩,
   ⟨"C1", "BOGOF", "Grocery", "B", 30, 0⟩,
   ⟨"C1", "25% OFF", "Snacks", "C", 20, 0⟩,
   ⟨"C2", "BOGOF", "Grocery", "B", 20, 0⟩]

/-- The KPI Summary of `dashboard.py`, Revenue branch, as a fallible
computation: `scope_df["revenue_before_promo"]` and then
`scope_df["revenue_after_promo"]` each raise a pandas `KeyError` carrying the
missing column's name when that column is absent (the `Except.error` side);
otherwise the two sums and the guarded incremental percentage are
computed. -/
def kpiRevenue (df : DataFrame KRow) : Except String (ℚ × ℚ × ℚ) :=
  if "revenue_before_promo" ∉ df.cols then .error "revenue_before_promo"
  else if "revenue_after_promo" ∉ df.cols then .error "revenue_after_promo"
  else .ok (total_revenue_before df.rows, total_revenue_after df.rows,
    ir_percent df.rows)

/-- The KPI Summary, Units branch, with the spaced historical column names. -/
def kpiUnits (df : DataFrame KRow) : Except String (ℚ × ℚ × ℚ) :=
  if "quantity_sold (before_promo)" ∉ df.cols then
    .error "quantity_sold (before_promo)"
  else if "quantity_sold (after_promo)" ∉ df.cols then
    .error "quantity_sold (after_promo)"
  else .ok (total_units_before df.rows, total_units_after df.rows,
    isu_percent df.rows)

/-- `before_col` of the faceted section, per KPI toggle. -/
def facet_before_col (m : Metric) : String :=
  match m with
  | .Revenue => "revenue_before_promo"
  | .Units => "quantity_sold (before_promo)"

/-- `after_col` of the faceted section, per KPI toggle. -/
def facet_after_col (m : Metric) : String :=
  match m with
  | .Revenue => "revenue_after_promo"
  | .Units => "quantity_sold (after_promo)"

/-- `required_cols = {"campaign_id", "product_code", before_col, after_col}`
of the faceted section. -/
def facet_required (m : Metric) : List String :=
  ["campaign_id", "product_code", facet_before_col m, facet_after_col m]

/-- `missing_cols = required_cols - set(df.columns)` of the faceted
section. -/
def facetMissing (df : DataFrame KRow) (m : Metric) : List String :=
  (facet_required m).filter (fun c => decide (c ∉ df.cols))

/-- One row of the melted before/after table built by `df_facet.melt`. -/
structure MeltRow where
  campaign_id : String
  product_code : String
  period : String
  value : ℚ
deriving DecidableEq

/-- The value of the facet's before column in one row. -/
def facet_before_val (m : Metric) (r : KRow) : ℚ :=
  match m with
  | .Revenue => r.revenue_before_promo
  | .Units => r.quantity_sold_before_promo

/-- The value of the facet's after column in one row. -/
def facet_after_val (m : Metric) (r : KRow) : ℚ :=
  match m with
  | .Revenue => r.revenue_after_promo
  | .Units => r.quantity_sold_after_promo

/-- The faceted small-multiples section of `pages/1_Advanced_Analytics.py`
(lines 271-327): the missing-column warning (no chart computed), or the
melt of the before/after columns — all Before rows then all After rows, as
`pd.melt` stacks `value_vars` in order. -/
def facetSection (df : DataFrame KRow) (m : Metric) :
    Except (List String) (List MeltRow) :=
  if facetMissing df m ≠ [] then .error (facetMissing df m)
  else .ok
    (df.rows.map (fun r =>
        ⟨r.campaign_id, r.product_code, "Before", facet_before_val m r⟩)
      ++ df.rows.map (fun r =>
        ⟨r.campaign_id, r.product_code, "After", facet_after_val m r⟩))

/-- The fixed alias registry of `scripts/data_loader.py`. -/
def CSV_ALIASES : List (String × String) :=
  [("campaign_data", "dim_campaigns.csv"),
   ("product_data", "dim_products.csv"),
   ("stores_data", "dim_stores.csv"),
   ("event_data", "fact_events.csv"),
   ("clean_revenue", "clean_revenue.csv"),
   ("city_sales", "city_sales.csv"),
   ("clean_all", "clean_all.csv")]

/-- What the file system holds for a backing file: absent, present but
unparsable, or a parsed table (modelled by its raw column names — no claim
inspects the loaded cell values). -/
inductive FileResult
  | absent
  | unreadable
  | table (cols : List String)

/-- The loader's configuration failure:
`raise KeyError(f"Unknown dataset alias: {alias}")`. -/
inductive LoadError
  | unknownAlias (name : String)
deriving DecidableEq

/-- The fixed `rename_map` of historical/alternate column spellings. -/
def rename_map : List (String × String) :=
  [("quantity_sold(before_promo)", "quantity_sold (before_promo)"),
   ("quantity_sold(after_promo)", "quantity_sold (after_promo)"),
   ("Incremental Revenue", "incremental_revenue"),
   ("IR%", "ir%"),
   ("ISU%", "isu%"),
   ("incremental_margin %", "incremental_margin%")]

/-- Column-name harmonization of `load_csv`: strip whitespace from every
name, then apply each rename only when the source name is present and the
target name is not already taken. -/
def harmonizeCols (cols : List String) : List String :=
  rename_map.foldl
    (fun cs kv =>
      if kv.1 ∈ cs ∧ kv.2 ∉ cs then
        cs.map (fun c => if c = kv.1 then kv.2 else c)
      else cs)
    (cols.map (fun c => c.trim))

/-- `load_csv(alias)` of `scripts/data_loader.py`, abstracted over the file
system `fs`: an alias outside the registry raises (`Except.error`); a
missing or unreadable backing file yields an empty dataset (plus a UI
warning/error message, not modelled); a parsed table is returned with
harmonized column names.  Caching and date parsing carry no claim and are
omitted. -/
def load_csv (fs : String → FileResult) (name : String) :
    Except LoadError (List String) :=
  match CSV_ALIASES.find? (fun p => p.1 == name) with
  | none => .error (.unknownAlias name)
  | some p =>
    match fs p.2 with
    | .absent => .ok []
    | .unreadable => .ok []
    | .table cols => .ok (harmonizeCols cols)

theorem activeFilters_all (cols : List String) (s : FilterState) (r : FRow) :
    ((activeFilters cols s).all (fun p => p r)) = rowPass cols s r := by
  unfold activeFilters rowPass dimPass
  split_ifs <;> simp [List.all_append, Bool.and_assoc]

theorem apply_cols_eq (df : DataFrame FRow) (s : FilterState) :
    (apply_global_filters df s).cols = df.cols := by
  unfold apply_global_filters
  split_ifs <;> rfl

theorem apply_rows_eq (df : DataFrame FRow) (s : FilterState) :
    (apply_global_filters df s).rows = df.rows.filter (rowPass df.cols s) := by
  unfold apply_global_filters
  split_ifs with h1 h2
  · rcases Bool.or_eq_true _ _ |>.mp h1 with h | h
    · rw [List.isEmpty_iff.mp h]; rfl
    · have hc : df.cols = [] := List.isEmpty_iff.mp h
      have hall : ∀ r ∈ df.rows, rowPass df.cols s r = true := by
        intro r _
        simp [rowPass, dimPass, hc]
      rw [List.filter_eq_self.mpr hall]
  · have hf : activeFilters df.cols s = [] := List.isEmpty_iff.mp h2
    have hall : ∀ r ∈ df.rows, rowPass df.cols s r = true := by
      intro r _
      rw [← activeFilters_all, hf]
      rfl
    rw [List.filter_eq_self.mpr hall]
  · simp only [activeFilters_all]

theorem dataframe_eq {ρ : Type} {a b : DataFrame ρ}
    (h1 : a.cols = b.cols) (h2 : a.rows = b.rows) : a = b := by
  cases a; cases b; cases h1; cases h2; rfl

/-- C5: applying the same selection state twice is idempotent:
`apply(apply(D,S), S)` is identical (columns and rows) to `apply(D,S)`. -/
theorem C5_filter_idempotent (df : DataFrame FRow) (s : FilterState) :
    apply_global_filters (apply_global_filters df s) s = apply_global_filters df s := by
  apply dataframe_eq
  · rw [apply_cols_eq, apply_cols_eq]
  · simp only [apply_rows_eq, apply_cols_eq]
    simp [List.filter_filter]

theorem dimPass_mono (cols : List String) (c : String) (sel1 sel2 : List String) (v : String)
    (h : sel1 = [] ∨ (sel2 ≠ [] ∧ ∀ x ∈ sel2, x ∈ sel1)) :
    dimPass cols c sel2 v = true → dimPass cols c sel1 v = true := by
  intro h2
  unfold dimPass at h2 ⊢
  rcases h with h | ⟨hne, hsub⟩
  · rw [if_neg (by rintro ⟨-, hne1⟩; exact hne1 h)]
  · by_cases hc : c ∈ cols
    · rw [if_pos ⟨hc, hne⟩] at h2
      have hv : v ∈ sel2 := by simpa using h2
      have hv1 : v ∈ sel1 := hsub v hv
      have hne1 : sel1 ≠ [] := by rintro rfl; simp at hv1
      rw [if_pos ⟨hc, hne1⟩]
      simpa using hv1
    · rw [if_neg (by rintro ⟨hc1, -⟩; exact hc hc1)]

theorem rowPass_mono (cols : List String) {s1 s2 : FilterState} (h : MoreRestrictive s1 s2)
    (r : FRow) : rowPass cols s2 r = true → rowPass cols s1 r = true := by
  obtain ⟨h1, h2, h3, h4, h5⟩ := h
  intro hp
  unfold rowPass at hp ⊢
  simp only [Bool.and_eq_true] at hp ⊢
  obtain ⟨⟨⟨⟨p1, p2⟩, p3⟩, p4⟩, p5⟩ := hp
  exact ⟨⟨⟨⟨dimPass_mono _ _ _ _ _ h1 p1, dimPass_mono _ _ _ _ _ h2 p2⟩,
    dimPass_mono _ _ _ _ _ h3 p3⟩, dimPass_mono _ _ _ _ _ h4 p4⟩,
    dimPass_mono _ _ _ _ _ h5 p5⟩

/-- C6: if S2 is more restrictive than S1 on every dimension (per dimension:
S1 unrestricted, or S2's non-empty accepted set is contained in S1's), then
the rows selected by S2 are a subset of the rows selected by S1. -/
theorem C6_filter_monotone (df : DataFrame FRow) (s1 s2 : FilterState)
    (h : MoreRestrictive s1 s2) :
    (apply_global_filters df s2).rows ⊆ (apply_global_filters df s1).rows := by
  intro r hr
  rw [apply_rows_eq] at hr ⊢
  rw [List.mem_filter] at hr ⊢
  exact ⟨hr.1, rowPass_mono df.cols h r hr.2⟩

theorem C6_filter_monotone_witness :
    MoreRestrictive emptyState wCampaignState
    ∧ (apply_global_filters wFilterDf wCampaignState).rows ⊆
        (apply_global_filters wFilterDf emptyState).rows :=
  ⟨⟨Or.inl rfl, Or.inl rfl, Or.inl rfl, Or.inl rfl, Or.inl rfl⟩,
   C6_filter_monotone wFilterDf emptyState wCampaignState
     ⟨Or.inl rfl, Or.inl rfl, Or.inl rfl, Or.inl rfl, Or.inl rfl⟩⟩

/-- C10: two selection states that agree on the campaign, category, product,
promo-type and city selections produce identical filtered frames, whatever
their `date_start` / `date_end` entries hold: the date-range branch of
`apply_global_filters` sits after an unconditional `return` and never runs. -/
theorem C10_date_range_no_effect (df : DataFrame FRow) (s1 s2 : FilterState)
    (h1 : s1.campaigns = s2.campaigns) (h2 : s1.categories = s2.categories)
    (h3 : s1.products = s2.products) (h4 : s1.promo_types = s2.promo_types)
    (h5 : s1.cities = s2.cities) :
    apply_global_filters df s1 = apply_global_filters df s2 := by
  unfold apply_global_filters activeFilters
  rw [h1, h2, h3, h4, h5]

theorem C10_date_range_no_effect_witness :
    ({ wCampaignState with date_start := some 0, date_end := some 100 } : FilterState)
      ≠ wCampaignState
    ∧ apply_global_filters wFilterDf
        { wCampaignState with date_start := some 0, date_end := some 100 }
      = apply_global_filters wFilterDf wCampaignState :=
  ⟨by decide,
   C10_date_range_no_effect wFilterDf _ wCampaignState rfl rfl rfl rfl rfl⟩

/-- C1 counterexample: on a scoped table whose before-promo totals are zero
(`zeroBeforeRows`), the module-level KPI recomputation of `dashboard.py`
(lines 203-208, feeding the before/after chart) divides by the zero total and
produces a non-finite value (`none` in the embedding) for both metric
families — not the claimed 0 — while the guarded KPI Summary right above it
does return 0. -/
theorem C1_kpi_zero_guard_cex :
    ir_percent_chart zeroBeforeRows = none
    ∧ isu_percent_chart zeroBeforeRows = none
    ∧ ir_percent zeroBeforeRows = 0
    ∧ isu_percent zeroBeforeRows = 0 := by
  refine ⟨?_, ?_, ?_, ?_⟩ <;>
    simp [ir_percent_chart, isu_percent_chart, ir_percent, isu_percent, floatDiv,
      total_revenue_before, total_revenue_after, total_units_before,
      total_units_after, zeroBeforeRows]

/-- C1 amended: the KPI Summary computations (`dashboard.py` lines 178-200)
return `(after - before) / before * 100` with the deliberate zero guard — 0
whenever the before total is exactly zero, regardless of the after total —
for both the Revenue and the Units family; but the module-level
recomputation after the summary (lines 203-208) applies the same formula
without the guard, agreeing with the summary exactly when the before total
is non-zero and producing a non-finite value instead of 0 when it is zero. -/
theorem C1_kpi_zero_guard_amended (rows : List KRow) :
    ir_percent rows = (if total_revenue_before rows = 0 then 0
      else (total_revenue_after rows - total_revenue_before rows)
        / total_revenue_before rows * 100)
    ∧ isu_percent rows = (if total_units_before rows = 0 then 0
      else (total_units_after rows - total_units_before rows)
        / total_units_before rows * 100)
    ∧ ir_percent_chart rows = (if total_revenue_before rows = 0 then none
      else some (ir_percent rows))
    ∧ isu_percent_chart rows = (if total_units_before rows = 0 then none
      else some (isu_percent rows)) := by
  unfold ir_percent isu_percent ir_percent_chart isu_percent_chart floatDiv
  refine ⟨?_, ?_, ?_, ?_⟩
  · by_cases h : total_revenue_before rows = 0 <;> simp [h]
  · by_cases h : total_units_before rows = 0 <;> simp [h]
  · by_cases h : total_revenue_before rows = 0 <;> simp [h]
  · by_cases h : total_units_before rows = 0 <;> simp [h]

theorem mem_uniqueAux {α : Type} [DecidableEq α] (seen xs : List α) (a : α) :
    a ∈ uniqueAux seen xs ↔ a ∈ xs ∧ a ∉ seen := by
  induction xs generalizing seen with
  | nil => simp [uniqueAux]
  | cons x xs ih =>
    unfold uniqueAux
    by_cases hx : x ∈ seen
    · rw [if_pos hx, ih]
      constructor
      · rintro ⟨h1, h2⟩
        exact ⟨List.mem_cons_of_mem _ h1, h2⟩
      · rintro ⟨h1, h2⟩
        rcases List.mem_cons.mp h1 with rfl | h1
        · exact absurd hx h2
        · exact ⟨h1, h2⟩
    · rw [if_neg hx]
      constructor
      · intro h
        rcases List.mem_cons.mp h with rfl | h
        · exact ⟨List.mem_cons_self _ _, hx⟩
        · rcases (ih (x :: seen)).mp h with ⟨h1, h2⟩
          exact ⟨List.mem_cons_of_mem _ h1,
            fun hs => h2 (List.mem_cons_of_mem _ hs)⟩
      · rintro ⟨h1, h2⟩
        rcases List.mem_cons.mp h1 with rfl | h1
        · exact List.mem_cons_self _ _
        · by_cases hax : a = x
          · subst hax
            exact List.mem_cons_self _ _
          · refine List.mem_cons_of_mem _ ((ih (x :: seen)).mpr ⟨h1, ?_⟩)
            intro hs
            rcases List.mem_cons.mp hs with h | h
            · exact hax h
            · exact h2 h

theorem mem_unique {α : Type} [DecidableEq α] (xs : List α) (a : α) :
    a ∈ unique xs ↔ a ∈ xs := by
  simp [unique, mem_uniqueAux]

theorem nodup_uniqueAux {α : Type} [DecidableEq α] (seen xs : List α) :
    (uniqueAux seen xs).Nodup := by
  induction xs generalizing seen with
  | nil => simp [uniqueAux]
  | cons x xs ih =>
    unfold uniqueAux
    by_cases hx : x ∈ seen
    · rw [if_pos hx]
      exact ih seen
    · rw [if_neg hx]
      refine List.nodup_cons.mpr ⟨?_, ih (x :: seen)⟩
      intro hmem
      exact ((mem_uniqueAux (x :: seen) xs x).mp hmem).2 (List.mem_cons_self _ _)

theorem nodup_unique {α : Type} [DecidableEq α] (xs : List α) :
    (unique xs).Nodup :=
  nodup_uniqueAux [] xs

theorem lastIndexOf_eq_none {α : Type} [DecidableEq α] (xs : List α) (v : α)
    (h : v ∉ xs) : lastIndexOf xs v = none := by
  induction xs with
  | nil => rfl
  | cons x xs ih =>
    unfold lastIndexOf
    rw [ih (fun hm => h (List.mem_cons_of_mem _ hm))]
    rw [if_neg (fun he => h (by rw [← he]; exact List.mem_cons_self x xs))]

theorem lastIndexOf_spec {α : Type} [DecidableEq α] (xs : List α) (v : α)
    (h : v ∈ xs) :
    ∃ i, lastIndexOf xs v = some i ∧ i < xs.length ∧ xs[i]? = some v := by
  induction xs with
  | nil => simp at h
  | cons x xs ih =>
    by_cases hm : v ∈ xs
    · obtain ⟨i, h1, h2, h3⟩ := ih hm
      refine ⟨i + 1, ?_, ?_, ?_⟩
      · unfold lastIndexOf
        rw [h1]
      · simpa using h2
      · simpa using h3
    · have hx : x = v := by
        rcases List.mem_cons.mp h with rfl | hc
        · rfl
        · exact absurd hc hm
      refine ⟨0, ?_, ?_, ?_⟩
      · unfold lastIndexOf
        rw [lastIndexOf_eq_none xs v hm, if_pos hx]
      · simp
      · simp [hx]

theorem hopEdges_resolve (rows : List SRow) (f g : SRow → String) (m : Metric)
    (labels : List String)
    (hf : ∀ r ∈ rows, f r ∈ labels) (hg : ∀ r ∈ rows, g r ∈ labels) :
    ∀ e ∈ hopEdges rows f g m labels, ∃ i j, e.src = some i ∧ e.tgt = some j
      ∧ i < labels.length ∧ j < labels.length := by
  intro e he
  unfold hopEdges at he
  rcases List.mem_map.mp he with ⟨ab, hab, rfl⟩
  have hab2 : ab ∈ rows.map (fun r => (f r, g r)) := (mem_unique _ _).mp hab
  rcases List.mem_map.mp hab2 with ⟨r, hr, rfl⟩
  obtain ⟨i, hi1, hi2, -⟩ := lastIndexOf_spec labels (f r) (hf r hr)
  obtain ⟨j, hj1, hj2, -⟩ := lastIndexOf_spec labels (g r) (hg r hr)
  exact ⟨i, j, hi1, hj1, hi2, hj2⟩

/-- C4 counterexample: with one row whose campaign label and promo-type label
are both "X", the code's node list `campaigns + promos + categories` is
["X", "X", "Z"] — the label "X" occupies two node indices — whereas the claim
demands the ordered union of distinct values ["X", "Z"]; plain concatenation
does not deduplicate across levels. -/
theorem C4_sankey_nodes_cex :
    sankey_labels crossLevelRows = ["X", "X", "Z"]
    ∧ specNodeUnion crossLevelRows = ["X", "Z"]
    ∧ sankey_labels crossLevelRows ≠ specNodeUnion crossLevelRows := by
  refine ⟨?_, ?_, ?_⟩ <;> decide

/-- C4 amended: the node list is the concatenation of the three per-level
distinct-value lists (each level deduplicated in first-occurrence order, no
deduplication across levels, so a value appearing at several levels appears
once per level); the edge index map, built by a dict comprehension in which
later duplicates overwrite earlier ones, still assigns every label one single
index — that of its last occurrence, which carries that label — and every
edge's source and target index resolves to an entry of the node list. -/
theorem C4_sankey_nodes_edges_amended (rows : List SRow) (m : Metric) :
    sankey_labels rows
      = unique (rows.map (·.campaign_id)) ++ unique (rows.map (·.promo_type))
        ++ unique (rows.map (·.category))
    ∧ (unique (rows.map (·.campaign_id))).Nodup
    ∧ (unique (rows.map (·.promo_type))).Nodup
    ∧ (unique (rows.map (·.category))).Nodup
    ∧ (∀ v ∈ sankey_labels rows, ∃ i, lastIndexOf (sankey_labels rows) v = some i
        ∧ i < (sankey_labels rows).length ∧ (sankey_labels rows)[i]? = some v)
    ∧ (∀ e ∈ sankey_edges rows m, ∃ i j, e.src = some i ∧ e.tgt = some j
        ∧ i < (sankey_labels rows).length ∧ j < (sankey_labels rows).length) := by
  have hc : ∀ r ∈ rows, r.campaign_id ∈ sankey_labels rows := by
    intro r hr
    have hm : r.campaign_id ∈ unique (rows.map (·.campaign_id)) :=
      (mem_unique _ _).mpr (List.mem_map_of_mem _ hr)
    simp [sankey_labels, List.mem_append, hm]
  have hp : ∀ r ∈ rows, r.promo_type ∈ sankey_labels rows := by
    intro r hr
    have hm : r.promo_type ∈ unique (rows.map (·.promo_type)) :=
      (mem_unique _ _).mpr (List.mem_map_of_mem _ hr)
    simp [sankey_labels, List.mem_append, hm]
  have hk : ∀ r ∈ rows, r.category ∈ sankey_labels rows := by
    intro r hr
    have hm : r.category ∈ unique (rows.map (·.category)) :=
      (mem_unique _ _).mpr (List.mem_map_of_mem _ hr)
    simp [sankey_labels, List.mem_append, hm]
  refine ⟨rfl, nodup_unique _, nodup_unique _, nodup_unique _, ?_, ?_⟩
  · intro v hv
    exact lastIndexOf_spec _ v hv
  · intro e he
    rcases List.mem_append.mp he with he | he
    · exact hopEdges_resolve rows _ _ m _ hc hp e he
    · exact hopEdges_resolve rows _ _ m _ hp hk e he

/-- C3 (code bug): a scoped table that has all five required columns but zero
rows does NOT yield an empty flow graph — the section fails with the
`ValueError` of `int(df_sankey[value_col].max())`, since the max of an empty
series is NaN.  The node/link construction itself, had it been reached,
would have produced the empty graph (second and third conjuncts). -/
theorem C3_empty_sankey_raises :
    sankeySection ⟨sankey_required, ([] : List SRow)⟩ Metric.Revenue 0
        = .error .intCastNaN
    ∧ sankey_labels ([] : List SRow) = []
    ∧ sankey_edges ([] : List SRow) Metric.Revenue = [] := by
  refine ⟨?_, rfl, rfl⟩
  rfl

theorem insertDescBy_perm {α : Type} (key : α → ℚ) (a : α) (l : List α) :
    (insertDescBy key a l).Perm (a :: l) := by
  induction l with
  | nil => exact List.Perm.refl _
  | cons b bs ih =>
    unfold insertDescBy
    by_cases h : key b < key a
    · rw [if_pos h]
    · rw [if_neg h]
      exact List.Perm.trans (List.Perm.cons b ih) (List.Perm.swap a b bs)

theorem sortDescBy_perm {α : Type} (key : α → ℚ) (l : List α) :
    (sortDescBy key l).Perm l := by
  induction l with
  | nil => exact List.Perm.refl _
  | cons a as ih =>
    unfold sortDescBy
    exact List.Perm.trans (insertDescBy_perm key a _) (List.Perm.cons a ih)

theorem insertDescBy_pairwise {α : Type} (key : α → ℚ) (a : α) (l : List α)
    (h : l.Pairwise (fun x y => key y ≤ key x)) :
    (insertDescBy key a l).Pairwise (fun x y => key y ≤ key x) := by
  induction l with
  | nil => simp [insertDescBy]
  | cons b bs ih =>
    rw [List.pairwise_cons] at h
    obtain ⟨hb, hbs⟩ := h
    unfold insertDescBy
    by_cases hlt : key b < key a
    · rw [if_pos hlt]
      refine List.pairwise_cons.mpr ⟨?_, List.pairwise_cons.mpr ⟨hb, hbs⟩⟩
      intro z hz
      rcases List.mem_cons.mp hz with rfl | hz
      · exact le_of_lt hlt
      · exact le_trans (hb z hz) (le_of_lt hlt)
    · rw [if_neg hlt]
      refine List.pairwise_cons.mpr ⟨?_, ih hbs⟩
      intro z hz
      have hz2 : z = a ∨ z ∈ bs := by
        simpa using (insertDescBy_perm key a bs).mem_iff.mp hz
      rcases hz2 with rfl | hz2
      · exact le_of_not_lt hlt
      · exact hb z hz2

theorem sortDescBy_pairwise {α : Type} (key : α → ℚ) (l : List α) :
    (sortDescBy key l).Pairwise (fun x y => key y ≤ key x) := by
  induction l with
  | nil => simp [sortDescBy]
  | cons a as ih =>
    unfold sortDescBy
    exact insertDescBy_pairwise key a _ ih

theorem pairwise_take_drop {α : Type} {R : α → α → Prop} {l : List α}
    (h : l.Pairwise R) (n : ℕ) :
    ∀ x ∈ l.take n, ∀ y ∈ l.drop n, R x y := by
  rw [← List.take_append_drop n l] at h
  exact (List.pairwise_append.mp h).2.2

/-- C7: with a cap n > 0, the pruning keeps exactly the groups whose leaf
value (last path segment) lies in `top_leaves` — a set of min(n, #leaves)
leaf values, all drawn from the data, such that every leaf left out has a
summed measure (across ALL of its groups) no larger than that of every leaf
kept; in particular, with n = 1 over leaves with totals A:5, B:50, C:20,
exactly the groups with leaf B remain — B's groups under both of its
upstream paths. -/
theorem C7_topn_prune (gs : List AggRow) (n : ℕ) (hn : 0 < n) :
    pruneTopN gs n = gs.filter (fun g => decide (leafOf g ∈ top_leaves gs n))
    ∧ (top_leaves gs n).length = min n (unique (gs.map leafOf)).length
    ∧ (∀ v ∈ top_leaves gs n, v ∈ gs.map leafOf)
    ∧ (∀ v ∈ top_leaves gs n, ∀ w ∈ gs.map leafOf, w ∉ top_leaves gs n →
        leafTotal gs w ≤ leafTotal gs v)
    ∧ pruneTopN topNExampleGroups 1
        = [⟨"C1", "BOGOF", "Grocery", "B", 30, 0⟩,
           ⟨"C2", "BOGOF", "Grocery", "B", 20, 0⟩] := by
  refine ⟨?_, ?_, ?_, ?_, ?_⟩
  · unfold pruneTopN
    rw [if_pos hn]
  · unfold top_leaves
    rw [List.length_take, (sortDescBy_perm (leafTotal gs) _).length_eq]
  · intro v hv
    have h1 : v ∈ sortDescBy (leafTotal gs) (unique (gs.map leafOf)) :=
      List.take_subset _ _ hv
    exact (mem_unique _ _).mp ((sortDescBy_perm _ _).mem_iff.mp h1)
  · intro v hv w hw hnw
    have hw2 : w ∈ sortDescBy (leafTotal gs) (unique (gs.map leafOf)) :=
      (sortDescBy_perm _ _).mem_iff.mpr ((mem_unique _ _).mpr hw)
    rw [← List.take_append_drop n
      (sortDescBy (leafTotal gs) (unique (gs.map leafOf)))] at hw2
    rcases List.mem_append.mp hw2 with hw3 | hw3
    · exact absurd hw3 hnw
    · exact pairwise_take_drop (sortDescBy_pairwise (leafTotal gs) _) n v hv w hw3
  · norm_num +decide [pruneTopN, top_leaves, topNExampleGroups, sortDescBy,
      insertDescBy, leafTotal, leafOf, unique, uniqueAux, List.filter_cons,
      List.filter_nil, List.sum_cons, List.sum_nil]

theorem C7_topn_prune_witness :
    pruneTopN topNExampleGroups 1
      = [⟨"C1", "BOGOF", "Grocery", "B", 30, 0⟩,
         ⟨"C2", "BOGOF", "Grocery", "B", 20, 0⟩] :=
  (C7_topn_prune topNExampleGroups 1 (by decide)).2.2.2.2

/-- C8: the rollup produces exactly one Aggregate Node per distinct
fully-present path (rows with a missing/NaN path segment are silently
excluded: the node paths are exactly the keys of rows whose four segments
are all present), each node carrying the sum of the measure column and the
arithmetic mean of the color column over its group; in particular two rows
sharing one path with measures 10 and 20 (and a NaN-path row alongside)
yield exactly one node with measure_value 30. -/
theorem C8_rollup_nodes (rows : List RRow) (m : Metric) :
    ((rollup_agg rows m).map AggRow.path).Nodup
    ∧ (∀ p, p ∈ (rollup_agg rows m).map AggRow.path ↔ p ∈ validKeys rows)
    ∧ (∀ g ∈ rollup_agg rows m,
        g.measure_value = ((groupRows rows g.path).map (rvalue m)).sum
        ∧ g.incremental_margin_pct
            = mean ((groupRows rows g.path).map (·.incremental_margin_pct)))
    ∧ rollup_agg rollupExampleRows Metric.Revenue
        = [⟨"C1", "BOGOF", "Grocery", "P14", 30, 2⟩] := by
  have hmap : (rollup_agg rows m).map AggRow.path = unique (validKeys rows) := by
    unfold rollup_agg
    rw [List.map_map]
    have hcomp : (AggRow.path ∘ fun k : String × String × String × String =>
        (⟨k.1, k.2.1, k.2.2.1, k.2.2.2,
          ((groupRows rows k).map (rvalue m)).sum,
          mean ((groupRows rows k).map (·.incremental_margin_pct))⟩ : AggRow)) = id := by
      funext k
      obtain ⟨a, b, c, d⟩ := k
      rfl
    rw [hcomp, List.map_id]
  refine ⟨?_, ?_, ?_, ?_⟩
  · rw [hmap]
    exact nodup_unique _
  · intro p
    rw [hmap, mem_unique]
  · intro g hg
    unfold rollup_agg at hg
    rcases List.mem_map.mp hg with ⟨k, hk, rfl⟩
    obtain ⟨a, b, c, d⟩ := k
    exact ⟨rfl, rfl⟩
  · norm_num +decide [rollup_agg, validKeys, groupRows, pathKey, rvalue, mean,
      unique, uniqueAux, rollupExampleRows, List.filter_cons, List.filter_nil,
      List.sum_cons, List.sum_nil, List.filterMap_cons]

theorem C8_rollup_nodes_witness :
    rollup_agg rollupExampleRows Metric.Revenue
      = [⟨"C1", "BOGOF", "Grocery", "P14", 30, 2⟩] :=
  (C8_rollup_nodes rollupExampleRows Metric.Revenue).2.2.2

theorem C4_sankey_nodes_edges_witness :
    ∀ e ∈ sankey_edges crossLevelRows Metric.Revenue,
      ∃ i j, e.src = some i ∧ e.tgt = some j
        ∧ i < (sankey_labels crossLevelRows).length
        ∧ j < (sankey_labels crossLevelRows).length :=
  (C4_sankey_nodes_edges_amended crossLevelRows Metric.Revenue).2.2.2.2.2

/-- C2: for every table, each aggregation with an absent required column
fails with the missing-column error naming that column — the pandas
`KeyError` carrying the column name for the KPI pair, the missing-column
warning listing exactly the absent required columns (computation skipped)
for the flow graph, the rollup and the faceted view — and in none of these
cases is a result computed. -/
theorem C2_missing_column :
    (∀ df : DataFrame KRow, "revenue_before_promo" ∉ df.cols →
      kpiRevenue df = .error "revenue_before_promo")
    ∧ (∀ df : DataFrame KRow, "revenue_before_promo" ∈ df.cols →
        "revenue_after_promo" ∉ df.cols →
      kpiRevenue df = .error "revenue_after_promo")
    ∧ (∀ df : DataFrame KRow, "quantity_sold (before_promo)" ∉ df.cols →
      kpiUnits df = .error "quantity_sold (before_promo)")
    ∧ (∀ df : DataFrame KRow, "quantity_sold (before_promo)" ∈ df.cols →
        "quantity_sold (after_promo)" ∉ df.cols →
      kpiUnits df = .error "quantity_sold (after_promo)")
    ∧ (∀ (df : DataFrame SRow) (m : Metric) (mv : ℚ), sankeyMissing df ≠ [] →
      sankeySection df m mv = .error (.missingColumns (sankeyMissing df))
        ∧ ∀ c, c ∈ sankeyMissing df ↔ c ∈ sankey_required ∧ c ∉ df.cols)
    ∧ (∀ (df : DataFrame RRow) (m : Metric) (n : ℕ), sunburstMissing df ≠ [] →
      sunburstSection df m n = .error (sunburstMissing df)
        ∧ ∀ c, c ∈ sunburstMissing df ↔ c ∈ sunburst_required ∧ c ∉ df.cols)
    ∧ (∀ (df : DataFrame KRow) (m : Metric), facetMissing df m ≠ [] →
      facetSection df m = .error (facetMissing df m)
        ∧ ∀ c, c ∈ facetMissing df m ↔ c ∈ facet_required m ∧ c ∉ df.cols) := by
  refine ⟨?_, ?_, ?_, ?_, ?_, ?_, ?_⟩
  · intro df h
    unfold kpiRevenue
    rw [if_pos h]
  · intro df h1 h2
    unfold kpiRevenue
    rw [if_neg (fun hn => hn h1), if_pos h2]
  · intro df h
    unfold kpiUnits
    rw [if_pos h]
  · intro df h1 h2
    unfold kpiUnits
    rw [if_neg (fun hn => hn h1), if_pos h2]
  · intro df m mv h
    constructor
    · unfold sankeySection
      rw [if_pos h]
    · intro c
      simp [sankeyMissing, List.mem_filter]
  · intro df m n h
    constructor
    · unfold sunburstSection
      rw [if_pos h]
    · intro c
      simp [sunburstMissing, List.mem_filter]
  · intro df m h
    constructor
    · unfold facetSection
      rw [if_pos h]
    · intro c
      simp [facetMissing, List.mem_filter]

theorem C2_missing_column_witness :
    kpiRevenue ⟨["city"], []⟩ = .error "revenue_before_promo"
    ∧ kpiUnits ⟨["revenue_before_promo", "revenue_after_promo"], []⟩
        = .error "quantity_sold (before_promo)"
    ∧ sankeySection (⟨["campaign_id"], []⟩ : DataFrame SRow) Metric.Revenue 0
        = .error (.missingColumns
            (sankeyMissing (⟨["campaign_id"], []⟩ : DataFrame SRow)))
    ∧ sunburstSection (⟨[], []⟩ : DataFrame RRow) Metric.Revenue 0
        = .error (sunburstMissing (⟨[], []⟩ : DataFrame RRow))
    ∧ facetSection (⟨[], []⟩ : DataFrame KRow) Metric.Revenue
        = .error (facetMissing (⟨[], []⟩ : DataFrame KRow) Metric.Revenue) :=
  ⟨C2_missing_column.1 ⟨["city"], []⟩ (by decide),
   C2_missing_column.2.2.1 ⟨["revenue_before_promo", "revenue_after_promo"], []⟩
     (by decide),
   (C2_missing_column.2.2.2.2.1 ⟨["campaign_id"], []⟩ Metric.Revenue 0
     (by decide)).1,
   (C2_missing_column.2.2.2.2.2.1 ⟨[], []⟩ Metric.Revenue 0 (by decide)).1,
   (C2_missing_column.2.2.2.2.2.2 ⟨[], []⟩ Metric.Revenue (by decide)).1⟩

/-- C9: every alias outside the fixed registry makes `load_csv` fail with
the configuration error that names the alias (the code's
`KeyError(f"Unknown dataset alias: ...")`), and no dataset is returned. -/
theorem C9_unknown_alias (fs : String → FileResult) (a : String)
    (h : ∀ p ∈ CSV_ALIASES, p.1 ≠ a) :
    load_csv fs a = .error (.unknownAlias a)
    ∧ ∀ d, load_csv fs a ≠ .ok d := by
  have hf : CSV_ALIASES.find? (fun p => p.1 == a) = none := by
    rw [List.find?_eq_none]
    intro p hp
    simpa using h p hp
  constructor
  · unfold load_csv
    rw [hf]
  · intro d hd
    unfold load_csv at hd
    rw [hf] at hd
    exact Except.noConfusion hd

theorem C9_unknown_alias_witness :
    (∀ p ∈ CSV_ALIASES, p.1 ≠ "bogus")
    ∧ load_csv (fun _ => FileResult.absent) "bogus"
        = .error (.unknownAlias "bogus") :=
  ⟨by decide,
   (C9_unknown_alias (fun _ => FileResult.absent) "bogus" (by decide)).1⟩
